import Mathlib

/-!
Verification of the unzip_file tool (src/unzip_file/tools/unzip_file.py).

The development shallowly embeds the tool's core routines:
`_detect_file_type`, `_extract_zip`, `_extract_rar`, `_extract_7z`,
`_extract_tar` (with its inner `is_within_directory` / `safe_extract`),
`_get_file_list`, `_get_file_info` and the `_invoke` orchestration.
Bytes are `List Nat`, paths are component lists rendered to character
lists where the source compares raw strings, and the fallible library
calls (zipfile / rarfile / py7zr / tarfile opens) are explicit inputs.
-/

namespace UnzipFile

/-- A stored tar member name: whether it begins with a slash (absolute), and
its slash-separated components, which may include ".." or ".". -/
structure MemberName where
  absolute : Bool
  parts : List String
deriving DecidableEq, Repr

/-- The normalization `os.path.abspath` applies after joining: ".." drops the
last component (at the root it stays at the root), "." and empty components
vanish, any other component is appended. -/
def resolveParts (base : List String) : List String → List String
  | [] => base
  | p :: ps =>
    if p == ".." then resolveParts base.dropLast ps
    else if p == "." || p == "" then resolveParts base ps
    else resolveParts (base ++ [p]) ps

/-- `os.path.abspath (os.path.join dest name)` for a member name joined to the
destination (line 243 of the source): a member name with a leading slash
replaces the destination entirely (Python join semantics), a relative one is
resolved against it. `dest` is the destination's absolute, already-normalized
component list. -/
def osPathJoin (dest : List String) (m : MemberName) : List String :=
  if m.absolute then resolveParts [] m.parts else resolveParts dest m.parts

/-- Render an absolute component list as the POSIX string `os.path.abspath`
returns: "/" for the root, otherwise each component preceded by "/". -/
def renderAbs (p : List String) : List Char :=
  match p with
  | [] => ['/']
  | _ => p.foldl (fun acc s => acc ++ '/' :: s.data) []

/-- `os.path.commonprefix`: the longest common prefix of the two path strings,
taken character by character with no regard for component boundaries. -/
def commonPrefixChars : List Char → List Char → List Char
  | a :: as, b :: bs => if a == b then a :: commonPrefixChars as bs else []
  | _, _ => []

/-- `is_within_directory` (source lines 235-239): compare the absolute
directory and the absolute target by `os.path.commonprefix` and accept when
the common prefix is exactly the directory string. Both arguments are given
as already-resolved absolute component lists. -/
def is_within_directory (directory target : List String) : Bool :=
  commonPrefixChars (renderAbs directory) (renderAbs target) == renderAbs directory

/-- Modelled from the spec: boundary-safe containment — the destination's
canonical component list must be a component-wise prefix of the member's
canonical component list, so a sibling directory that merely shares a raw
string prefix does not pass. Stated for comparison with the source's
`is_within_directory`. -/
def specWithinDirectory (directory target : List String) : Bool :=
  directory.isPrefixOf target

/-- The error kinds an extractor can raise. -/
inductive ExtractError where
  | passwordProtected
  | pathTraversal
  | corrupt
deriving DecidableEq, Repr

/-- `safe_extract` (source lines 241-246): walk the members in order; for each,
join its stored name to the destination and run `is_within_directory`; raise on
the first failure, otherwise extract the member. Returns the members actually
extracted, in order, and the raised error if any. -/
def safe_extract (dest : List String) : List MemberName → List MemberName × Option ExtractError
  | [] => ([], none)
  | m :: ms =>
    if is_within_directory dest (osPathJoin dest m) then
      match safe_extract dest ms with
      | (ws, e) => (m :: ws, e)
    else ([], some ExtractError.pathTraversal)

/-- A tar archive: its members, and whether `tarfile.open` fails structurally. -/
structure TarArchive where
  members : List MemberName
  readFault : Bool
deriving DecidableEq, Repr

/-- `_extract_tar` (source lines 231-248): open the archive (a structural
fault raises), then run `safe_extract`. -/
def _extract_tar (t : TarArchive) (dest : List String) : List MemberName × Option ExtractError :=
  if t.readFault then ([], some ExtractError.corrupt)
  else safe_extract dest t.members

/-- One zip catalog entry: its general-purpose flag bits and name. -/
structure ZipEntry where
  flag_bits : Nat
  name : String
deriving DecidableEq, Repr

/-- A zip archive: its catalog, and whether `zipfile.ZipFile` fails to open. -/
structure ZipArchive where
  entries : List ZipEntry
  readFault : Bool
deriving DecidableEq, Repr

/-- The loop over `zip_ref.infolist()` (source lines 207-209): the first entry
whose encryption flag bit (bit 0) is set, if any. -/
def scanEncrypted : List ZipEntry → Option ZipEntry
  | [] => none
  | e :: es => if e.flag_bits &&& 1 ≠ 0 then some e else scanEncrypted es

/-- `_extract_zip` (source lines 203-211): open (a structural fault raises),
scan every catalog entry's flag bits for the encryption bit and raise if one is
set, then `extractall`. Returns the entries written and the raised error. -/
def _extract_zip (z : ZipArchive) : List ZipEntry × Option ExtractError :=
  if z.readFault then ([], some ExtractError.corrupt)
  else
    match scanEncrypted z.entries with
    | some _ => ([], some ExtractError.passwordProtected)
    | none => (z.entries, none)

/-- A rar archive: its password flag, and whether `rarfile.RarFile` fails. -/
structure RarArchive where
  needs_password : Bool
  readFault : Bool
deriving DecidableEq, Repr

/-- `_extract_rar` (source lines 213-220): open, check `needs_password`,
then `extractall` with no path check of its own. -/
def _extract_rar (r : RarArchive) : Option ExtractError :=
  if r.readFault then some ExtractError.corrupt
  else if r.needs_password then some ExtractError.passwordProtected
  else none

/-- A 7z archive: its password flag, and whether `py7zr.SevenZipFile` fails. -/
structure SevenZArchive where
  needs_password : Bool
  readFault : Bool
deriving DecidableEq, Repr

/-- `_extract_7z` (source lines 222-229): open, check `needs_password`,
then `extractall` with no path check of its own. -/
def _extract_7z (s : SevenZArchive) : Option ExtractError :=
  if s.readFault then some ExtractError.corrupt
  else if s.needs_password then some ExtractError.passwordProtected
  else none

/-- The closed set of strings `_detect_file_type` can return, one constructor
per `return` site in the source. -/
inductive FileType where
  | zip
  | rar
  | sevenZip
  | gzip
  | tarGz
  | bz2
  | tarBz2
  | tar
  | unknown
deriving DecidableEq, Repr

def ZIP_SIG1 : List Nat := [0x50, 0x4B, 0x03, 0x04]

def ZIP_SIG2 : List Nat := [0x50, 0x4B, 0x05, 0x06]

def ZIP_SIG3 : List Nat := [0x50, 0x4B, 0x07, 0x08]

def RAR_SIG : List Nat := [0x52, 0x61, 0x72, 0x21, 0x1A, 0x07]

def SEVENZ_SIG : List Nat := [0x37, 0x7A, 0xBC, 0xAF, 0x27, 0x1C]

def GZIP_SIG : List Nat := [0x1F, 0x8B]

def BZ2_SIG : List Nat := [0x42, 0x5A, 0x68]

def USTAR : List Nat := [0x75, 0x73, 0x74, 0x61, 0x72]

def ZIP_CD_SIG : List Nat := [0x50, 0x4B, 0x01, 0x02]

def RAR_MARK : List Nat := [0x52, 0x61, 0x72, 0x21]

/-- `bytes.startswith`. -/
def startsWith (l p : List Nat) : Bool := p.isPrefixOf l

/-- `str.endswith`. -/
def strEndsWith (s suf : String) : Bool := suf.data.isSuffixOf s.data

/-- Python's `needle in hay` on bytes: contiguous-subsequence containment. -/
def listContains (needle : List Nat) : List Nat → Bool
  | [] => needle.isEmpty
  | b :: rest => needle.isPrefixOf (b :: rest) || listContains needle rest

/-- The detection evidence: the staged file's bytes, and the lowercased
basename of its path (always "compressed_file" when called from `_invoke`). -/
structure DFile where
  bytes : List Nat
  name : String
deriving DecidableEq, Repr

/-- `header = f.read(20)` (source line 96). -/
def headerOf (f : DFile) : List Nat := f.bytes.take 20

/-- Outcomes of the four trial-open probes (source lines 141-183): whether each
library opens the staged file and reports at least one catalog entry. -/
structure TrialOracle where
  zipOpens : Bool
  rarOpens : Bool
  sevenZOpens : Bool
  tarOpens : Bool
deriving DecidableEq, Repr

/-- `_detect_file_type` (source lines 89-201): magic bytes, the tar structural
check, suffix rules, the under-100-byte size gate, the four trial-open probes,
and the 4096-byte deep-content fallback, in the source's order. Total: every
probe failure is swallowed and the chain continues, so no input errors. -/
def _detect_file_type (f : DFile) (o : TrialOracle) : FileType :=
  if startsWith (headerOf f) ZIP_SIG1 || startsWith (headerOf f) ZIP_SIG2 || startsWith (headerOf f) ZIP_SIG3 then FileType.zip
  else if startsWith (headerOf f) RAR_SIG then FileType.rar
  else if startsWith (headerOf f) SEVENZ_SIG then FileType.sevenZip
  else if startsWith (headerOf f) GZIP_SIG then
    if strEndsWith f.name (".tar.gz") || strEndsWith f.name (".tgz") then FileType.tarGz else FileType.gzip
  else if startsWith (headerOf f) BZ2_SIG then
    if strEndsWith f.name (".tar.bz2") || strEndsWith f.name (".tbz2") then FileType.tarBz2 else FileType.bz2
  else if strEndsWith f.name (".tar") || (decide (257 < (headerOf f).length) && listContains USTAR (((headerOf f).drop 257).take 5)) then FileType.tar
  else if strEndsWith f.name (".tar.gz") || strEndsWith f.name (".tgz") then FileType.tarGz
  else if strEndsWith f.name (".tar.bz2") || strEndsWith f.name (".tbz2") then FileType.tarBz2
  else if strEndsWith f.name (".zip") then FileType.zip
  else if strEndsWith f.name (".rar") then FileType.rar
  else if strEndsWith f.name (".7z") then FileType.sevenZip
  else if f.bytes.length < 100 then FileType.unknown
  else if o.zipOpens then FileType.zip
  else if o.rarOpens then FileType.rar
  else if o.sevenZOpens then FileType.sevenZip
  else if o.tarOpens then FileType.tar
  else if listContains ZIP_CD_SIG (f.bytes.take 4096) then FileType.zip
  else if listContains RAR_MARK (f.bytes.take 4096) then FileType.rar
  else FileType.unknown

/-- The string each `FileType` constructor stands for in the source. -/
def ftName : FileType → String
  | FileType.zip => "zip"
  | FileType.rar => "rar"
  | FileType.sevenZip => "7z"
  | FileType.gzip => "gzip"
  | FileType.tarGz => "tar.gz"
  | FileType.bz2 => "bz2"
  | FileType.tarBz2 => "tar.bz2"
  | FileType.tar => "tar"
  | FileType.unknown => "unknown"

mutual
/-- The extracted file tree on disk, as seen by `os.walk`: a `dir` node holds
the forest of its children. (A mutual pair instead of a nested list so the
walk functions reduce inside the kernel.) -/
inductive FsTree where
  | file (name : String) (size : Nat)
  | dir (name : String) (children : FsForest)
/-- A list of sibling tree nodes. -/
inductive FsForest where
  | nil
  | cons (t : FsTree) (rest : FsForest)
end

/-- The `type` field of a `_get_file_list` record. -/
inductive EntryType where
  | file
  | directory
deriving DecidableEq, Repr

/-- One record of `_get_file_list`: name, kind, and size (files only). -/
structure FileEntry where
  name : String
  etype : EntryType
  size : Option Nat
deriving DecidableEq, Repr

/-- The file records of one `os.walk` level (source lines 273-285). -/
def levelFiles : FsForest → List FileEntry
  | FsForest.nil => []
  | FsForest.cons (FsTree.file n s) rest => ⟨n, EntryType.file, some s⟩ :: levelFiles rest
  | FsForest.cons (FsTree.dir _ _) rest => levelFiles rest

/-- The directory records of one `os.walk` level (source lines 288-296). -/
def levelDirs : FsForest → List FileEntry
  | FsForest.nil => []
  | FsForest.cons (FsTree.file _ _) rest => levelDirs rest
  | FsForest.cons (FsTree.dir n _) rest => ⟨n, EntryType.directory, none⟩ :: levelDirs rest

/-- The recursive descent of `os.walk` into each subdirectory, in order. -/
def walkChildren : FsForest → List FileEntry
  | FsForest.nil => []
  | FsForest.cons (FsTree.file _ _) rest => walkChildren rest
  | FsForest.cons (FsTree.dir _ cs) rest =>
    (levelFiles cs ++ levelDirs cs ++ walkChildren cs) ++ walkChildren rest

/-- `_get_file_list` (source lines 267-297): for each `os.walk` tuple, append
all file records then all directory records, top-down. -/
def _get_file_list (ts : FsForest) : List FileEntry :=
  levelFiles ts ++ levelDirs ts ++ walkChildren ts

/-- The records of kind `file` in a manifest. -/
def fileEntryCount (l : List FileEntry) : Nat :=
  (l.filter fun e => e.etype = EntryType.file).length

/-- The records of kind `directory` in a manifest. -/
def dirEntryCount (l : List FileEntry) : Nat :=
  (l.filter fun e => e.etype = EntryType.directory).length

/-- The Python exception types `_invoke` can let escape. -/
inductive PyExnType where
  | invokeServerUnavailable
  | genericException
deriving DecidableEq, Repr

/-- A raised exception: its type and its message string. -/
structure Raised where
  ty : PyExnType
  msg : String
deriving DecidableEq, Repr

/-- A message yielded by `_invoke`: a text message or a blob message. -/
inductive OutMessage where
  | text (s : String)
  | blob (filename : String)
deriving DecidableEq, Repr

def msgMissing : String := "错误: 未提供压缩文件"

def msgWrongType : String := "错误: 传入的对象不是 dify_plugin.file.file.File 类型"

def msgZipPassword : String := "ZIP文件有密码保护，无法解压"

def msgRarPassword : String := "RAR文件有密码保护，无法解压"

def msgSevenZPassword : String := "7Z文件有密码保护，无法解压"

def msgTraversal : String := "检测到路径遍历攻击尝试"

/-- The corrupt-archive message: the library's own `str(e)` text, modelled as
one fixed string. -/
def msgCorrupt : String := "压缩文件损坏"

/-- Hex digit of a nibble, lowercase as `bytes.hex()` produces. -/
def hexDigitChar (n : Nat) : Char :=
  if n < 10 then Char.ofNat (48 + n) else Char.ofNat (87 + n)

/-- Two hex digits of one byte. -/
def byteHex (b : Nat) : List Char :=
  [hexDigitChar (b / 16 % 16), hexDigitChar (b % 16)]

/-- `f.read(16).hex()` of the staged file. -/
def headerHexStr (bytes : List Nat) : String :=
  String.mk ((bytes.take 16).foldl (fun acc b => acc ++ byteHex b) [])

/-- `_get_file_info` (source lines 250-265) for the staged file, whose basename
is always "compressed_file" and whose `splitext` extension is empty. -/
def _get_file_info (bytes : List Nat) : String :=
  "文件名: compressed_file, 大小: " ++ toString bytes.length ++
    " 字节, 扩展名: , 文件头: " ++ headerHexStr bytes

/-- The message raised by the extractor that failed, per error kind and
dispatched format (the password text names the format's library). -/
def extractErrMsg (ft : FileType) (e : ExtractError) : String :=
  match e with
  | ExtractError.passwordProtected =>
    match ft with
    | FileType.zip => msgZipPassword
    | FileType.rar => msgRarPassword
    | _ => msgSevenZPassword
  | ExtractError.pathTraversal => msgTraversal
  | ExtractError.corrupt => msgCorrupt

/-- Everything one `_invoke` call consumes: the tool parameters (`hasFile`,
`isFileObj`), the staged bytes, the trial-open outcomes, the parsed archive
contents each extractor would see, the absolute extraction directory, the
extracted tree `os.walk` would see on success, and whether some unrelated
exception fires inside the `try` block (with its message). -/
structure InvokeInput where
  hasFile : Bool
  isFileObj : Bool
  fileBytes : List Nat
  oracle : TrialOracle
  zipContent : ZipArchive
  rarContent : RarArchive
  sevenZContent : SevenZArchive
  tarContent : TarArchive
  extractDest : List String
  extractedTree : FsForest
  unexpectedFault : Option String

/-- The dispatch on `file_type` (source lines 55-67): `none` is the
unsupported-format `else` branch, `some r` means the matching extractor ran
with result `r`. -/
def dispatchExtract (ft : FileType) (inp : InvokeInput) : Option (Option ExtractError) :=
  match ft with
  | FileType.zip => some (_extract_zip inp.zipContent).2
  | FileType.rar => some (_extract_rar inp.rarContent)
  | FileType.sevenZip => some (_extract_7z inp.sevenZContent)
  | FileType.tar => some (_extract_tar inp.tarContent inp.extractDest).2
  | FileType.tarGz => some (_extract_tar inp.tarContent inp.extractDest).2
  | FileType.tarBz2 => some (_extract_tar inp.tarContent inp.extractDest).2
  | _ => none

/-- The final summary text (source line 79): it interpolates `len(file_list)`. -/
def summaryMsg (n : Nat) : String :=
  "共 " ++ toString n ++ " 个文件解压成功，已返回文件列表。"

/-- The per-entry message of the success loop (source lines 71-77). -/
def entryMessage (fi : FileEntry) : OutMessage :=
  match fi.etype with
  | EntryType.file => OutMessage.blob fi.name
  | EntryType.directory => OutMessage.text ("跳过目录: " ++ fi.name)

/-- The body of the `try` block (source lines 42-79): the messages yielded
inside it, and the message of the exception that escaped it, if any. -/
def tryBody (inp : InvokeInput) : List OutMessage × Option String :=
  match inp.unexpectedFault with
  | some s => ([], some s)
  | none =>
    match dispatchExtract (_detect_file_type ⟨inp.fileBytes, "compressed_file"⟩ inp.oracle) inp with
    | none =>
      ([OutMessage.text ("错误: 不支持的压缩文件格式: " ++ ftName (_detect_file_type ⟨inp.fileBytes, "compressed_file"⟩ inp.oracle) ++ "\n文件信息: " ++ _get_file_info inp.fileBytes)],
       some ("错误: 不支持的压缩文件格式: " ++ ftName (_detect_file_type ⟨inp.fileBytes, "compressed_file"⟩ inp.oracle) ++ "\n文件信息: " ++ _get_file_info inp.fileBytes))
    | some (some e) =>
      ([], some (extractErrMsg (_detect_file_type ⟨inp.fileBytes, "compressed_file"⟩ inp.oracle) e))
    | some none =>
      ((_get_file_list inp.extractedTree).map entryMessage ++
        [OutMessage.text (summaryMsg (_get_file_list inp.extractedTree).length)],
       none)

/-- `shutil.rmtree` on the temporary directory: first result is whether the
directory still exists afterwards, second the escaping error message. When the
OS removal faults, the entries that failed to be removed — and with them the
directory — remain in place; `ignore_errors` only decides whether the error
escapes, not whether removal somehow completes. -/
def shutil_rmtree (ignoreErrors osFault : Bool) : Bool × Option String :=
  if osFault then
    if ignoreErrors then (true, none)
    else (true, some ("清理失败"))
  else (false, none)

/-- `finally` semantics: an exception escaping the finalizer replaces the
in-flight one, otherwise the in-flight exception stands. -/
def finallyMerge (bodyRaised : Option Raised) (fin : Bool × Option String) : Option Raised :=
  match fin.2 with
  | some s => some ⟨PyExnType.genericException, s⟩
  | none => bodyRaised

/-- The observable outcome of one `_invoke` call. -/
structure InvokeResult where
  messages : List OutMessage
  raised : Option Raised
  tempDirCreated : Bool
  tempDirExistsAfter : Bool
deriving DecidableEq, Repr

/-- `_invoke` (source lines 23-87): the two input checks run before
`tempfile.mkdtemp`; everything else runs inside `try ... except ... finally`,
where the `except` block yields "解压失败: " plus the exception text and
re-raises it as `InvokeServerUnavailableError`, and the `finally` block runs
`shutil.rmtree(temp_dir, ignore_errors=True)` on every path. `cleanupFault`
says whether the OS removal would fault. -/
def _invoke (inp : InvokeInput) (cleanupFault : Bool) : InvokeResult :=
  if inp.hasFile = false then
    ⟨[OutMessage.text msgMissing], some ⟨PyExnType.invokeServerUnavailable, msgMissing⟩, false, false⟩
  else if inp.isFileObj = false then
    ⟨[OutMessage.text msgWrongType], some ⟨PyExnType.invokeServerUnavailable, msgWrongType⟩, false, false⟩
  else
    match tryBody inp with
    | (msgs, none) =>
      ⟨msgs, finallyMerge none (shutil_rmtree true cleanupFault), true,
        (shutil_rmtree true cleanupFault).1⟩
    | (msgs, some em) =>
      ⟨msgs ++ [OutMessage.text ("解压失败: " ++ em)],
        finallyMerge (some ⟨PyExnType.invokeServerUnavailable, "解压失败: " ++ em⟩)
          (shutil_rmtree true cleanupFault),
        true, (shutil_rmtree true cleanupFault).1⟩

/-- Whether an extractor result is the path-traversal error. -/
def isPathTraversal : Option ExtractError → Bool
  | some ExtractError.pathTraversal => true
  | _ => false

/-- Whether a format is dispatched to `_extract_tar`. -/
def isTarFamily : FileType → Bool
  | FileType.tar => true
  | FileType.tarGz => true
  | FileType.tarBz2 => true
  | _ => false

/-- Whether the disjunction of all magic-byte rules fires. -/
def matchesMagic (h : List Nat) : Bool :=
  startsWith h ZIP_SIG1 || startsWith h ZIP_SIG2 || startsWith h ZIP_SIG3 ||
  startsWith h RAR_SIG || startsWith h SEVENZ_SIG || startsWith h GZIP_SIG ||
  startsWith h BZ2_SIG

/-- Whether any filename-suffix rule of the detector fires. -/
def matchesKnownSuffix (n : String) : Bool :=
  strEndsWith n (".tar") || strEndsWith n (".tar.gz") || strEndsWith n (".tgz") ||
  strEndsWith n (".tar.bz2") || strEndsWith n (".tbz2") ||
  strEndsWith n (".zip") || strEndsWith n (".rar") || strEndsWith n (".7z")

/-- The tar structural check applied to the file's actual bytes: "ustar" at
offsets 257-261, as the source's comment describes. -/
def ustarWindow (f : DFile) : Bool :=
  listContains USTAR ((f.bytes.drop 257).take 5)

def cDest : List String := ["d", "extracted"]

def cEvilSibling : MemberName := ⟨false, ["..", "extracted-evil", "x"]⟩

def cEvilSibling2 : MemberName := ⟨false, ["..", "extractedX", "y"]⟩

def cEscape : MemberName := ⟨false, ["..", "..", "etc", "passwd"]⟩

def cOracleNone : TrialOracle := ⟨false, false, false, false⟩

def cOracleAll : TrialOracle := ⟨true, true, true, true⟩

def cUstarFile : DFile := ⟨List.replicate 257 0 ++ USTAR, "compressed_file"⟩

def cGzFile : DFile := ⟨[0x1F, 0x8B, 0x08, 0x00], "compressed_file"⟩

def cSmallFile : DFile :=
  ⟨List.replicate 10 0 ++ ZIP_CD_SIG ++ List.replicate 36 0, "compressed_file"⟩

def cZipEnc : ZipArchive := ⟨[⟨0, "plain.txt"⟩, ⟨9, "secret.txt"⟩], false⟩

def cZipPlain : ZipArchive := ⟨[⟨0, "a.xlsx"⟩], false⟩

def cRarPlain : RarArchive := ⟨false, false⟩

def cSevenZPlain : SevenZArchive := ⟨false, false⟩

def cTarPlain : TarArchive := ⟨[], false⟩

def cTarEvil : TarArchive := ⟨[⟨true, ["etc", "passwd"]⟩], false⟩

def cTree : FsForest := FsForest.cons (FsTree.file ("a.xlsx") 3) FsForest.nil

def cTree8 : FsForest :=
  FsForest.cons (FsTree.file ("a.xlsx") 3)
    (FsForest.cons (FsTree.dir ("sub") FsForest.nil) FsForest.nil)

def cInpZip : InvokeInput :=
  ⟨true, true, [0x50, 0x4B, 0x03, 0x04], cOracleNone, cZipPlain, cRarPlain,
    cSevenZPlain, cTarPlain, ["tmp", "t", "extracted"], cTree, none⟩

def cInpZip8 : InvokeInput :=
  ⟨true, true, [0x50, 0x4B, 0x03, 0x04], cOracleNone, cZipPlain, cRarPlain,
    cSevenZPlain, cTarPlain, ["tmp", "t", "extracted"], cTree8, none⟩

def cInpMissing : InvokeInput :=
  ⟨false, true, [], cOracleNone, cZipPlain, cRarPlain, cSevenZPlain, cTarPlain,
    ["tmp", "t", "extracted"], FsForest.nil, none⟩

def cInpTarEvil : InvokeInput :=
  ⟨true, true, [], cOracleNone, cZipPlain, cRarPlain, cSevenZPlain, cTarEvil,
    ["tmp", "t", "extracted"], FsForest.nil, none⟩

def cPreOk : MemberName := ⟨false, ["ok1"]⟩

def cPostM : MemberName := ⟨false, ["after"]⟩

/-- If some member of the catalog has the encryption bit set, the scan loop
finds one. -/
theorem scanEncrypted_some (l : List ZipEntry) (e : ZipEntry)
    (hbit : e.flag_bits &&& 1 ≠ 0) : e ∈ l → ∃ x, scanEncrypted l = some x := by
  induction l with
  | nil => intro he; cases he
  | cons a l ih =>
    intro he
    by_cases ha : a.flag_bits &&& 1 ≠ 0
    · exact ⟨a, by simp only [scanEncrypted]; rw [if_pos ha]⟩
    · rcases List.mem_cons.mp he with h | h
      · subst h; exact absurd hbit ha
      · rcases ih h with ⟨x, hx⟩
        exact ⟨x, by simp only [scanEncrypted]; rw [if_neg ha]; exact hx⟩

/-- With `ignore_errors` set, `shutil.rmtree` lets no error escape, and the
tree is gone exactly when the OS removal did not fault. -/
theorem shutil_rmtree_ignore (b : Bool) : shutil_rmtree true b = (b, none) := by
  cases b <;> rfl

/-- The last element of a list extended by one element. -/
theorem getLast_append_singleton {α : Type} (l : List α) (a : α) :
    (l ++ [a]).getLast? = some a :=
  List.getLast?_concat l

/-- A manifest's length splits into its file records and directory records. -/
theorem length_filter_file_dir (l : List FileEntry) :
    l.length = fileEntryCount l + dirEntryCount l := by
  induction l with
  | nil => rfl
  | cons e l ih =>
    cases he : e.etype <;>
      simp [fileEntryCount, dirEntryCount, he] at ih ⊢ <;> omega

/-- The 20-byte header buffer is always too short for the offset-257 window. -/
theorem headerOf_short (f : DFile) : (headerOf f).length ≤ 20 := by
  have h0 : (f.bytes.take 20).length ≤ 20 := by
    rw [List.length_take]; omega
  exact h0

/-- C1: the tar guard compares canonical paths as raw strings, not at
directory-component boundaries. The member "../extracted-evil/x" resolves to
the sibling "/d/extracted-evil/x" of the destination "/d/extracted": it is not
within the destination by the boundary-safe spec check, yet the source's
`is_within_directory` accepts it and `safe_extract` writes it without raising
`PathTraversalError` — refuting the claimed boundary-safe behaviour. -/
theorem C1_tar_guard_string_prefix_not_boundary :
    specWithinDirectory cDest (osPathJoin cDest cEvilSibling) = false ∧
    is_within_directory cDest (osPathJoin cDest cEvilSibling) = true ∧
    safe_extract cDest [cEvilSibling] = ([cEvilSibling], none) := by
  decide

/-- C2 counterexample: the member "../extractedX/y" escapes the destination
root "/d/extracted" via a parent-directory component, yet `safe_extract`
raises nothing and writes the member — so the claim's universal statement
over all members escaping via ".." is false as stated. -/
theorem C2_counterexample_sibling :
    (".." ∈ cEvilSibling2.parts) ∧
    specWithinDirectory cDest (osPathJoin cDest cEvilSibling2) = false ∧
    safe_extract cDest [cEvilSibling2] = ([cEvilSibling2], none) := by
  decide

/-- C2 (amended): for a member whose resolved path fails the source's
string-prefix containment check (which covers "../../etc/passwd"-style escapes
to unrelated directories and absolute member names, though not sibling paths
sharing the root as a string prefix), extraction raises `PathTraversalError`
at that member: exactly the passing members before it are written, and neither
the offender nor any member after it is written. -/
theorem C2_escape_aborts_at_offender (dest : List String) (bad : MemberName)
    (post : List MemberName) (pre : List MemberName)
    (hbad : is_within_directory dest (osPathJoin dest bad) = false)
    (hpre : ∀ m ∈ pre, is_within_directory dest (osPathJoin dest m) = true) :
    safe_extract dest (pre ++ bad :: post) = (pre, some ExtractError.pathTraversal) := by
  induction pre with
  | nil => simp [safe_extract, hbad]
  | cons m pre ih =>
    have hm := hpre m (List.mem_cons_self m pre)
    have ihh := ih fun x hx => hpre x (List.mem_cons_of_mem m hx)
    simp [safe_extract, hm, ihh]

/-- C2 witness: a concrete archive with one safe member, then
"../../etc/passwd", then one more member, against destination "/d/x". -/
theorem C2_escape_aborts_witness :
    is_within_directory ["d", "x"] (osPathJoin ["d", "x"] cEscape) = false ∧
    (∀ m ∈ [cPreOk], is_within_directory ["d", "x"] (osPathJoin ["d", "x"] m) = true) ∧
    safe_extract ["d", "x"] ([cPreOk] ++ cEscape :: [cPostM]) =
      ([cPreOk], some ExtractError.pathTraversal) :=
  ⟨by decide, by decide,
    C2_escape_aborts_at_offender ["d", "x"] cEscape [cPostM] [cPreOk]
      (by decide) (by decide)⟩

/-- C3: if any catalog entry of a readable zip archive has its encryption flag
bit set, `_extract_zip` raises `PasswordProtectedError` and writes no entry at
all — the flag-bit scan runs before `extractall` is ever reached. -/
theorem C3_zip_password_blocks_all (z : ZipArchive) (e : ZipEntry)
    (hf : z.readFault = false) (he : e ∈ z.entries)
    (hbit : e.flag_bits &&& 1 ≠ 0) :
    _extract_zip z = ([], some ExtractError.passwordProtected) := by
  rcases scanEncrypted_some z.entries e hbit he with ⟨x, hx⟩
  simp [_extract_zip, hf, hx]

/-- C3 witness: an archive with one plain entry and one encrypted entry. -/
theorem C3_zip_password_witness :
    cZipEnc.readFault = false ∧
    (⟨9, "secret.txt"⟩ : ZipEntry) ∈ cZipEnc.entries ∧
    ((9 : Nat) &&& 1 ≠ 0) ∧
    _extract_zip cZipEnc = ([], some ExtractError.passwordProtected) :=
  ⟨rfl, by decide, by decide,
    C3_zip_password_blocks_all cZipEnc ⟨9, "secret.txt"⟩ rfl (by decide) (by decide)⟩

/-- C4 counterexample: a successful extraction whose OS-level cleanup faults.
The temporary directory was created and still exists after `_invoke` returns —
`ignore_errors` swallowed the fault but did not remove the tree — refuting the
claim's assertion that the directory no longer exists on every terminal
outcome (while the operation's result is still unchanged: no error raised). -/
theorem C4_counterexample_cleanup_fault :
    (_invoke cInpZip true).tempDirCreated = true ∧
    (_invoke cInpZip true).tempDirExistsAfter = true ∧
    (_invoke cInpZip true).raised = none := by
  decide

/-- C4 (amended): whenever `_invoke` created its temporary directory, on every
terminal outcome the `finally` block runs the recursive removal: when the OS
removal does not fault the directory no longer exists after the invocation
returns, and whether or not it faults, the fault is swallowed by
`ignore_errors` and the raised error is identical to the fault-free run — a
cleanup failure is never reported as the operation's error. -/
theorem C4_cleanup_best_effort (inp : InvokeInput) (cf : Bool)
    (hc : (_invoke inp cf).tempDirCreated = true) :
    (_invoke inp false).tempDirExistsAfter = false ∧
    (_invoke inp cf).raised = (_invoke inp false).raised := by
  unfold _invoke at hc ⊢
  by_cases h1 : inp.hasFile = false
  · simp [h1] at hc
  · by_cases h2 : inp.isFileObj = false
    · simp [h1, h2] at hc
    · rcases htb : tryBody inp with ⟨msgs, eo⟩
      cases eo <;> simp [h1, h2, htb, finallyMerge, shutil_rmtree_ignore]

/-- C4 witness: a successful zip extraction, with the OS cleanup faulting. -/
theorem C4_cleanup_best_effort_witness :
    (_invoke cInpZip true).tempDirCreated = true ∧
    ((_invoke cInpZip false).tempDirExistsAfter = false ∧
      (_invoke cInpZip true).raised = (_invoke cInpZip false).raised) :=
  ⟨by decide, C4_cleanup_best_effort cInpZip true (by decide)⟩

set_option maxRecDepth 100000 in
/-- C5: the structural ustar rule is dead code. `cUstarFile` is a 262-byte
file with "ustar" at offsets 257-261, no magic-byte match and a name not
ending in ".tar", yet detection falls through it (returning `unknown` when
every trial-open fails, rather than `tar` by the structural check), because
`header` is only ever the first 20 bytes, so `len(header) > 257` — and with it
the whole structural conjunct — is false for every input. -/
theorem C5_structural_ustar_check_unreachable :
    cUstarFile.bytes.length = 262 ∧
    ustarWindow cUstarFile = true ∧
    strEndsWith cUstarFile.name (".tar") = false ∧
    matchesMagic (headerOf cUstarFile) = false ∧
    _detect_file_type cUstarFile cOracleNone = FileType.unknown ∧
    ∀ f : DFile,
      (decide (257 < (headerOf f).length) &&
        listContains USTAR (((headerOf f).drop 257).take 5)) = false := by
  refine ⟨by decide, by decide, by decide, by decide, by decide, ?_⟩
  intro f
  have h2 : ¬ 257 < (headerOf f).length := by
    have := headerOf_short f
    omega
  have h3 : decide (257 < (headerOf f).length) = false := decide_eq_false h2
  simp [h3]

/-- C6 counterexample: a file with the gzip magic and no tar-ish name is
classified `gzip`, which is outside the claimed seven-value verdict set. -/
theorem C6_counterexample_gzip :
    _detect_file_type cGzFile cOracleNone = FileType.gzip ∧
    ([FileType.zip, FileType.rar, FileType.sevenZip, FileType.tar, FileType.tarGz,
      FileType.tarBz2, FileType.unknown].contains FileType.gzip) = false := by
  decide

/-- C6 (amended): detection is a total function — it never raises — and its
verdict always lies in the closed nine-value set Zip, Rar, SevenZip, Gzip,
TarGz, Bz2, TarBz2, Tar, Unknown (the claimed seven plus the plain `gzip` and
`bz2` verdicts the source also returns). -/
theorem C6_closed_verdict_set (f : DFile) (o : TrialOracle) :
    ([FileType.zip, FileType.rar, FileType.sevenZip, FileType.gzip, FileType.tarGz,
      FileType.bz2, FileType.tarBz2, FileType.tar, FileType.unknown].contains
      (_detect_file_type f o)) = true := by
  cases h : _detect_file_type f o <;> rfl

/-- C7: a file under 100 bytes that matches no magic-byte rule and no known
suffix is classified `unknown` by the size gate, whatever the four trial-open
probes or the deep-content scan would have said — the oracle is universally
quantified and never consulted. -/
theorem C7_size_gate_returns_unknown (f : DFile) (o : TrialOracle)
    (hm : matchesMagic (headerOf f) = false)
    (hs : matchesKnownSuffix f.name = false)
    (hsize : f.bytes.length < 100) :
    _detect_file_type f o = FileType.unknown := by
  simp only [matchesMagic, Bool.or_eq_false_iff] at hm
  obtain ⟨⟨⟨⟨⟨⟨h1, h2⟩, h3⟩, h4⟩, h5⟩, h6⟩, h7⟩ := hm
  simp only [matchesKnownSuffix, Bool.or_eq_false_iff] at hs
  obtain ⟨⟨⟨⟨⟨⟨⟨g1, g2⟩, g3⟩, g4⟩, g5⟩, g6⟩, g7⟩, g8⟩ := hs
  have hd : decide (257 < (headerOf f).length) = false :=
    decide_eq_false (by have := headerOf_short f; omega)
  simp [_detect_file_type, h1, h2, h3, h4, h5, h6, h7,
    g1, g2, g3, g4, g5, g6, g7, g8, hd, hsize]

/-- C7 witness: a 50-byte file that even contains the zip central-directory
signature, probed with an oracle in which every trial-open would succeed —
still `unknown`. -/
theorem C7_size_gate_witness :
    matchesMagic (headerOf cSmallFile) = false ∧
    matchesKnownSuffix cSmallFile.name = false ∧
    cSmallFile.bytes.length < 100 ∧
    _detect_file_type cSmallFile cOracleAll = FileType.unknown :=
  ⟨by decide, by decide, by decide,
    C7_size_gate_returns_unknown cSmallFile cOracleAll (by decide) (by decide) (by decide)⟩

/-- C8 counterexample: with one extracted file and one extracted directory the
manifest has one record of kind file, but the final summary interpolates
`len(file_list)` and reports 2 — not the count of file records, since the
message for 2 differs from the message for 1. -/
theorem C8_counterexample_dirs_counted :
    fileEntryCount (_get_file_list cTree8) = 1 ∧
    (tryBody cInpZip8).1.getLast? = some (OutMessage.text (summaryMsg 2)) ∧
    ((summaryMsg 2 == summaryMsg 1) = false) := by
  decide

/-- C8 (amended): the count the final summary message reports is
`len(file_list)` — the total number of manifest records, file records plus
directory records, not the file records alone. -/
theorem C8_summary_counts_all_entries (ts : FsForest) :
    (_get_file_list ts).length =
      fileEntryCount (_get_file_list ts) + dirEntryCount (_get_file_list ts) :=
  length_filter_file_dir (_get_file_list ts)

/-- C9: whenever `_invoke` raises, the exception is of the single type
`InvokeServerUnavailableError`, and its message text has been yielded as the
last text message before the raise — the error kinds differ only in that
text. -/
theorem C9_single_exception_type (inp : InvokeInput) (cf : Bool) (r : Raised)
    (h : (_invoke inp cf).raised = some r) :
    r.ty = PyExnType.invokeServerUnavailable ∧
    (_invoke inp cf).messages.getLast? = some (OutMessage.text r.msg) := by
  unfold _invoke at h ⊢
  by_cases h1 : inp.hasFile = false
  · simp only [if_pos h1] at h ⊢
    simp at h
    rw [← h]
    exact ⟨rfl, rfl⟩
  · by_cases h2 : inp.isFileObj = false
    · simp only [if_neg h1, if_pos h2] at h ⊢
      simp at h
      rw [← h]
      exact ⟨rfl, rfl⟩
    · rcases htb : tryBody inp with ⟨msgs, eo⟩
      cases eo
      · simp [h1, h2, htb, finallyMerge, shutil_rmtree_ignore] at h
      · simp only [if_neg h1, if_neg h2, htb] at h ⊢
        simp only [finallyMerge, shutil_rmtree_ignore, Option.some.injEq] at h
        rw [← h]
        exact ⟨rfl, getLast_append_singleton msgs _⟩

/-- C9 witness: the missing-input failure path. -/
theorem C9_single_exception_witness :
    (_invoke cInpMissing false).raised =
      some ⟨PyExnType.invokeServerUnavailable, msgMissing⟩ ∧
    ((⟨PyExnType.invokeServerUnavailable, msgMissing⟩ : Raised).ty =
        PyExnType.invokeServerUnavailable ∧
      (_invoke cInpMissing false).messages.getLast? =
        some (OutMessage.text (Raised.msg ⟨PyExnType.invokeServerUnavailable, msgMissing⟩))) :=
  ⟨by decide,
    C9_single_exception_type cInpMissing false
      ⟨PyExnType.invokeServerUnavailable, msgMissing⟩ (by decide)⟩

/-- C10: the zip, rar and 7z extractors never produce the path-traversal
error on any input — they have no path check and can only raise password or
corruption errors — so whenever the dispatch yields `PathTraversalError`, the
dispatched format is tar, tar.gz or tar.bz2. -/
theorem C10_traversal_only_from_tar :
    (∀ z : ZipArchive, isPathTraversal (_extract_zip z).2 = false) ∧
    (∀ r : RarArchive, isPathTraversal (_extract_rar r) = false) ∧
    (∀ s : SevenZArchive, isPathTraversal (_extract_7z s) = false) ∧
    (∀ (ft : FileType) (inp : InvokeInput),
      dispatchExtract ft inp = some (some ExtractError.pathTraversal) →
        isTarFamily ft = true) := by
  have hz : ∀ z : ZipArchive, isPathTraversal (_extract_zip z).2 = false := by
    intro z
    cases hf : z.readFault
    · cases hsc : scanEncrypted z.entries <;>
        simp [_extract_zip, hf, hsc, isPathTraversal]
    · simp [_extract_zip, hf, isPathTraversal]
  have hr : ∀ r : RarArchive, isPathTraversal (_extract_rar r) = false := by
    intro r
    cases hf : r.readFault <;> cases hp : r.needs_password <;>
      simp [_extract_rar, hf, hp, isPathTraversal]
  have hsz : ∀ s : SevenZArchive, isPathTraversal (_extract_7z s) = false := by
    intro s
    cases hf : s.readFault <;> cases hp : s.needs_password <;>
      simp [_extract_7z, hf, hp, isPathTraversal]
  refine ⟨hz, hr, hsz, ?_⟩
  intro ft inp hd
  cases ft <;> simp [dispatchExtract, isTarFamily] at hd ⊢
  · have h0 := hz inp.zipContent
    rw [hd] at h0
    simp [isPathTraversal] at h0
  · have h0 := hr inp.rarContent
    rw [hd] at h0
    simp [isPathTraversal] at h0
  · have h0 := hsz inp.sevenZContent
    rw [hd] at h0
    simp [isPathTraversal] at h0

/-- C10 witness: a tar archive with an absolute member name is dispatched to
the tar extractor and does yield the path-traversal error. -/
theorem C10_traversal_witness :
    dispatchExtract FileType.tar cInpTarEvil = some (some ExtractError.pathTraversal) ∧
    isTarFamily FileType.tar = true :=
  ⟨by decide, C10_traversal_only_from_tar.2.2.2 FileType.tar cInpTarEvil (by decide)⟩

end UnzipFile
